import Mathlib

/-!
Verification of the HTTP dispatch layer of the planet client
(`planet/api/dispatch.py`): header construction, redirect-safe credential
handling, TLS-verification configuration, the rate limiter, and the
synchronous/asynchronous dispatch paths.

Shallow embedding conventions:
* Python dicts of headers become association lists `List (String × String)`;
  `requests` stores headers in a case-insensitive dict, so lookup and removal
  compare keys lowercased.
* `None` / missing values become `Option`; Python truthiness of a string is
  "non-empty", of an object "present".
* Raising an exception becomes returning `Except.error`.
* Wall-clock time is modelled with `ℚ`.
* URLs that only flow through `urlparse(...).hostname` and `prepare_url` are
  modelled as a structure holding the (already parsed, lowercased) hostname
  and the decoded query-parameter list; the remaining parts are opaque.
-/

namespace Planet

/-- An API-key credential (`planet.api.auth.APIKey`); only its `value` is read
by the dispatcher. -/
structure Auth where
  value : String
deriving Repr, DecidableEq

/-- A logical request as consumed by the dispatcher: method, URL, query
parameters, body data and optional credential (`planet.api.models.Request`). -/
structure Request where
  method : String
  url : String
  params : List (String × String)
  data : Option String
  auth : Option Auth
deriving Repr, DecidableEq

/-- Python truthiness of the `data` field: present and non-empty. -/
def dataTruthy (d : Option String) : Bool :=
  match d with
  | none => false
  | some s => s ≠ ""

/-- Errors the dispatch layer can raise.  `invalidAPIKey` is
`planet.api.exceptions.InvalidAPIKey`; `apiException` is the status-derived
error raised by `check_status` for a failing HTTP status, carrying the status
code and the raw error body. -/
inductive DispatchError where
  | invalidAPIKey (msg : String)
  | apiException (status : Nat) (body : String)
deriving Repr, DecidableEq

/-- Modelled from the spec: the string representation of a dispatch error.
`planet/api/exceptions.py` is not under src/; per the spec, the API status
error's string representation is exactly the error body text
("raises an error whose string representation is exactly
`{"message": "Error message"}`"), and `InvalidAPIKey` carries its message. -/
def errorStr : DispatchError → String
  | .invalidAPIKey msg => msg
  | .apiException _ body => body

/-- `_headers(request)` from `dispatch.py`: `Content-Type: application/json`
when the request has body data, then `Authorization: api-key <value>` when a
credential is present, otherwise raise `InvalidAPIKey('No API key provided')`. -/
def _headers (request : Request) : Except DispatchError (List (String × String)) :=
  let headers := if dataTruthy request.data then [("Content-Type", "application/json")] else []
  match request.auth with
  | some a => .ok (headers ++ [("Authorization", "api-key " ++ a.value)])
  | none => .error (.invalidAPIKey "No API key provided")

/-! ## Redirect-safe session (`RedirectSession.rebuild_auth`) -/

/-- A URL as seen by `rebuild_auth`: the hostname that `urlparse(url).hostname`
would extract (already lowercased by `urlparse`), the decoded query-parameter
list, and the remaining parts kept opaque. -/
structure Url where
  hostname : String
  query : List (String × String)
  rest : String
deriving Repr, DecidableEq

/-- Python `l[-2:]`: the last two elements of a list (the whole list when it is
shorter). -/
def lastTwo {α : Type} (l : List α) : List α :=
  l.drop (l.length - 2)

/-- Python `host.split('.')` over the character list of the host, with `acc`
the characters of the current label in reverse: split on every dot, keeping
empty labels, never dropping characters. -/
def splitDotsAux : List Char → List Char → List (List Char)
  | [], acc => [acc.reverse]
  | c :: cs, acc =>
      if c = '.' then acc.reverse :: splitDotsAux cs []
      else splitDotsAux cs (c :: acc)

/-- The dot-separated labels of a hostname (`host.split('.')`). -/
def hostLabels (host : String) : List (List Char) :=
  splitDotsAux host.data []

/-- `_is_subdomain_of_tld(url1, url2)` from `dispatch.py`: the hostnames of the
two URLs agree on their last two dot-separated labels
(`split('.')[-2:] == split('.')[-2:]`). -/
def _is_subdomain_of_tld (url1 url2 : Url) : Bool :=
  let orig_host := hostLabels url1.hostname
  let re_host := hostLabels url2.hostname
  lastTwo orig_host == lastTwo re_host

/-- Python `str.lower`, character by character over the string's data. -/
def lowerChars (s : String) : List Char :=
  s.data.map Char.toLower

/-- Case-insensitive header lookup (`CaseInsensitiveDict.get`). -/
def headerGet (hs : List (String × String)) (k : String) : Option String :=
  (hs.find? (fun p => lowerChars p.1 == lowerChars k)).map Prod.snd

/-- Case-insensitive header removal (`CaseInsensitiveDict.pop`); a header dict
holds at most one entry per case-insensitive key, so filtering removes it. -/
def headerPop (hs : List (String × String)) (k : String) : List (String × String) :=
  hs.filter (fun p => lowerChars p.1 != lowerChars k)

/-- A prepared request as seen by `rebuild_auth`: its headers and its URL. -/
structure PreparedRequest where
  headers : List (String × String)
  url : Url
deriving Repr, DecidableEq

/-- `PreparedRequest.prepare_url(url, params)` from `requests`: re-encode the
URL with the extra query parameters appended to its query string. -/
def prepare_url (u : Url) (params : List (String × String)) : Url :=
  { u with query := u.query ++ params }

/-- Python whitespace (`\s` over the characters relevant here); `\S` in the
pattern `api-key (\S+)` matches any character not in this set. -/
def isPySpace (c : Char) : Bool :=
  c == ' ' || c == '\t' || c == '\n' || c == '\r' || c == '\x0b' || c == '\x0c'

/-- `re.match('api-key (\S+)', s)`: anchored at the start of `s`, the literal
`api-key ` (8 characters) followed by a maximal non-empty run of
non-whitespace characters, which is the captured group. -/
def apiKeyMatch (s : String) : Option String :=
  let cs := s.data
  if ("api-key ".data).isPrefixOf cs then
    let tok := (cs.drop 8).takeWhile (fun c => !isPySpace c)
    if tok.isEmpty then none else some (String.mk tok)
  else none

/-- `RedirectSession.rebuild_auth(prepared_request, response)` from
`dispatch.py`.  `response_request_url` is `response.request.url`, the URL of
the request that produced the redirect.  If an `Authorization` header is
present (and truthy) and the redirect target's registered domain differs from
the original's, the header is removed and, when its value matches
`api-key (\S+)`, the key is re-encoded as an `api_key` query parameter on the
redirect URL. -/
def rebuild_auth (prepared_request : PreparedRequest) (response_request_url : Url) :
    PreparedRequest :=
  match headerGet prepared_request.headers "Authorization" with
  | none => prepared_request
  | some existing_auth =>
    if existing_auth = "" then prepared_request
    else
      let orig := response_request_url
      let redir := prepared_request.url
      if _is_subdomain_of_tld orig redir then prepared_request
      else
        let headers := headerPop prepared_request.headers "Authorization"
        match apiKeyMatch existing_auth with
        | some key =>
            { headers := headers
              url := prepare_url prepared_request.url [("api_key", key)] }
        | none => { prepared_request with headers := headers }

/-! ## TLS verification flag and the dispatcher -/

/-- `USE_STRICT_SSL = not (os.getenv('DISABLE_STRICT_SSL', '').lower() == 'true')`
from `dispatch.py`, evaluated over an environment `env` mapping variable names
to their optional values (`os.getenv` defaults to the empty string). -/
def USE_STRICT_SSL (env : String → Option String) : Bool :=
  !(((env "DISABLE_STRICT_SSL").getD "").toLower == "true")

/-- One invocation of the underlying HTTP transport
(`session.request` / `asyncpool.request` / `session.send`): the arguments the
dispatcher passes to it. -/
structure NetCall where
  method : String
  url : String
  data : Option String
  headers : List (String × String)
  params : List (String × String)
  verify : Bool
deriving Repr, DecidableEq

/-- The raw transport response: status code and body text. -/
structure HttpResponse where
  status_code : Nat
  text : String
deriving Repr, DecidableEq

/-- Modelled from the spec: `check_status` from `planet.api.utils` is not
under src/.  Per the spec, dispatch "raises a status-derived error if the HTTP
status indicates failure (4xx/5xx), carrying the parsed error body when
available"; the error's string representation is the body text. -/
def check_status (response : HttpResponse) : Except DispatchError Unit :=
  if 400 ≤ response.status_code then
    .error (.apiException response.status_code response.text)
  else
    .ok ()

/-- The outcome of a dispatch: the returned response or the raised error,
together with the list of transport invocations that occurred, in order. -/
structure DispatchResult where
  result : Except DispatchError HttpResponse
  calls : List NetCall
deriving Repr

/-- `RequestsDispatcher._dispatch(request)` from `dispatch.py`, with the
transport abstracted as a function from the call arguments to the response.
Python evaluates `headers=_headers(request)` before invoking
`self.session.request`, so a header-construction error occurs with no
transport call; on a response, `check_status` decides between returning it and
raising.  (The surrounding throttler context manager is modelled separately;
it does not alter the result or the calls.) -/
def _dispatch (env : String → Option String) (transport : NetCall → HttpResponse)
    (request : Request) : DispatchResult :=
  match _headers request with
  | .error e => { result := .error e, calls := [] }
  | .ok hs =>
    let call : NetCall :=
      { method := request.method, url := request.url, data := request.data
        headers := hs, params := request.params, verify := USE_STRICT_SSL env }
    let response := transport call
    match check_status response with
    | .error e => { result := .error e, calls := [call] }
    | .ok _ => { result := .ok response, calls := [call] }

/-- `RequestsDispatcher._dispatch_async(request, callback)` from `dispatch.py`:
same header construction and verify flag, but the call is handed to the worker
pool and the (future's) response is returned without a status check at this
layer. -/
def _dispatch_async (env : String → Option String) (transport : NetCall → HttpResponse)
    (request : Request) : DispatchResult :=
  match _headers request with
  | .error e => { result := .error e, calls := [] }
  | .ok hs =>
    let call : NetCall :=
      { method := request.method, url := request.url, data := request.data
        headers := hs, params := request.params, verify := USE_STRICT_SSL env }
    { result := .ok (transport call), calls := [call] }

/-- `RequestsDispatcher.dispatch_request(method, url, auth, params, data)` from
`dispatch.py` (the legacy v0 path): headers start empty; only when `auth` is
supplied are `Authorization` and `Content-Type: application/json` both set; the
prepared request is sent directly with no header-construction error and no
status check. -/
def dispatch_request (env : String → Option String) (transport : NetCall → HttpResponse)
    (method url : String) (auth : Option Auth) (params : List (String × String))
    (data : Option String) : DispatchResult :=
  let headers :=
    match auth with
    | some a => [("Authorization", "api-key " ++ a.value), ("Content-Type", "application/json")]
    | none => []
  let call : NetCall :=
    { method := method, url := url, data := data
      headers := headers, params := params, verify := USE_STRICT_SSL env }
  { result := .ok (transport call), calls := [call] }

/-! ## The rate limiter (`_Throttler`)

`_Throttler.__init__(ops)` sets `self._wait = 1./ops` and creates a
single-slot semaphore.  `__enter__` acquires the slot and records
`self._t = time.time()`; `__exit__` sleeps the residual
`self._wait - (time.time() - self._t)` when positive, releases the slot and
returns `False`.  Two complementary models follow: a trace predicate over the
serialized sequence of dispatches (for the spacing bound) and an explicit
state-passing semantics of one `with self._throttler:` block (for exception
safety). -/

/-- A serialized trace of `n` dispatches through one `_Throttler` with wait
interval `wait`.  `start i` is the time `__enter__` records into `self._t` for
the `i`-th dispatch; `release i` is the time its `__exit__` releases the
semaphore.  The fields state exactly the timing constraints the code imposes:
`__exit__` first sleeps until at least `self._t + self._wait` has passed
(`exit_after_wait`), and the single-slot semaphore forces the next `__enter__`
to return only after the previous `__exit__` released it (`serialized`). -/
structure ThrottlerTrace (wait : ℚ) (n : ℕ) where
  start : Fin n → ℚ
  release : Fin n → ℚ
  exit_after_wait : ∀ i, start i + wait ≤ release i
  serialized : ∀ i j : Fin n, i.val + 1 = j.val → release i ≤ start j

/-- The mutable state one `with self._throttler:` block touches: the number of
free semaphore slots, the wall clock, and the recorded entry time `self._t`. -/
structure ThrState where
  sem : ℕ
  now : ℚ
  t : ℚ
deriving Repr, DecidableEq

/-- `_Throttler.__enter__`: acquire the semaphore slot and record
`self._t = time.time()`. -/
def throttlerEnter (s : ThrState) : ThrState :=
  { sem := s.sem - 1, now := s.now, t := s.now }

/-- `_Throttler.__exit__(*exc)`: compute the residual wait
`w = self._wait - (time.time() - self._t)`, sleep it when positive, release
the semaphore slot.  It ignores the exception arguments and returns `False`. -/
def throttlerExit (wait : ℚ) (s : ThrState) : ThrState :=
  let w := wait - (s.now - s.t)
  let now' := if 0 < w then s.now + w else s.now
  { sem := s.sem + 1, now := now', t := s.t }

/-- Python `with self._throttler: body` where `body` may raise (return
`Except.error`) and may advance the clock: `__enter__` runs, then the body,
then `__exit__` runs in both the normal and the exceptional case, and because
`__exit__` returns `False` an exception propagates unchanged. -/
def withThrottler {E A : Type} (wait : ℚ) (body : ThrState → Except E A × ThrState)
    (s : ThrState) : Except E A × ThrState :=
  let s1 := throttlerEnter s
  let r := body s1
  (r.1, throttlerExit wait r.2)

/-! ## Theorems -/

/-- Claim C1: for every request whose auth credential is absent,
a synchronous dispatch raises `InvalidAPIKey` during header construction and
the underlying HTTP session's request method is never invoked: the transport
call list is empty. -/
theorem dispatch_no_auth_fails_before_network (env : String → Option String)
    (transport : NetCall → HttpResponse) (request : Request)
    (h : request.auth = none) :
    (_dispatch env transport request).result
        = .error (.invalidAPIKey "No API key provided")
    ∧ (_dispatch env transport request).calls = [] := by
  simp [_dispatch, _headers, h]

/-- Witness for C1 at a concrete credential-less request. -/
theorem dispatch_no_auth_fails_before_network_witness :
    ({ method := "GET", url := "https://api.planet.com/v1", params := [],
       data := none, auth := none } : Request).auth = none
    ∧ ((_dispatch (fun _ => none) (fun _ => ⟨200, "ok"⟩)
          { method := "GET", url := "https://api.planet.com/v1", params := [],
            data := none, auth := none }).result
        = .error (.invalidAPIKey "No API key provided")
      ∧ (_dispatch (fun _ => none) (fun _ => ⟨200, "ok"⟩)
          { method := "GET", url := "https://api.planet.com/v1", params := [],
            data := none, auth := none }).calls = []) :=
  ⟨rfl, dispatch_no_auth_fails_before_network (fun _ => none) (fun _ => ⟨200, "ok"⟩) _ rfl⟩

/-- Claim C6: with a credential present, the constructed header map is exactly
`Content-Type: application/json` and `Authorization: api-key <value>` when the
request has a non-empty body, and exactly the `Authorization` entry when it
has no body. -/
theorem headers_exact (request : Request) (a : Auth) (h : request.auth = some a) :
    (dataTruthy request.data = true →
      _headers request = .ok [("Content-Type", "application/json"),
                              ("Authorization", "api-key " ++ a.value)])
    ∧ (dataTruthy request.data = false →
      _headers request = .ok [("Authorization", "api-key " ++ a.value)]) := by
  constructor <;> intro hd <;> simp [_headers, h, hd]

/-- A concrete request with a JSON body and a credential, for the C6 witness. -/
def reqWithBody : Request :=
  { method := "POST", url := "https://api.planet.com/v1", params := [],
    data := some "\x7b\x7d", auth := some ⟨"k1"⟩ }

/-- Witness for C6 at a concrete request with a body and a credential. -/
theorem headers_exact_witness :
    reqWithBody.auth = some ⟨"k1"⟩
    ∧ ((dataTruthy reqWithBody.data = true →
          _headers reqWithBody
            = .ok [("Content-Type", "application/json"),
                   ("Authorization", "api-key " ++ "k1")])
      ∧ (dataTruthy reqWithBody.data = false →
          _headers reqWithBody = .ok [("Authorization", "api-key " ++ "k1")])) :=
  ⟨rfl, headers_exact reqWithBody ⟨"k1"⟩ rfl⟩

/-- Claim C7: the verify flag is strict unless `DISABLE_STRICT_SSL` equals
`true` case-insensitively, and every transport call on the synchronous and on
the asynchronous path carries this one flag value. -/
theorem strict_ssl_uniform (env : String → Option String)
    (transport : NetCall → HttpResponse) (request : Request) :
    (USE_STRICT_SSL env = true ↔
      ¬ ((env "DISABLE_STRICT_SSL").getD "").toLower = "true")
    ∧ (∀ c ∈ (_dispatch env transport request).calls, c.verify = USE_STRICT_SSL env)
    ∧ (∀ c ∈ (_dispatch_async env transport request).calls,
        c.verify = USE_STRICT_SSL env) := by
  refine ⟨by simp [USE_STRICT_SSL], ?_, ?_⟩
  · intro c hc
    cases hh : _headers request with
    | error e => simp [_dispatch, hh] at hc
    | ok hs =>
      simp only [_dispatch, hh] at hc
      split at hc <;> simp at hc <;> subst hc <;> rfl
  · intro c hc
    cases hh : _headers request with
    | error e => simp [_dispatch_async, hh] at hc
    | ok hs =>
      simp [_dispatch_async, hh] at hc
      subst hc; rfl

/-- Claim C8: when the transport answers every call with status 404 and body
`{"message": "Error message"}`, a synchronous dispatch (for a request whose
headers construct) raises the API status error for that response, and its
string representation is exactly the body text. -/
theorem dispatch_404_error_string (env : String → Option String)
    (transport : NetCall → HttpResponse) (request : Request) (a : Auth)
    (hauth : request.auth = some a)
    (htr : ∀ c, transport c = ⟨404, "\x7b\"message\": \"Error message\"\x7d"⟩) :
    (_dispatch env transport request).result
        = .error (.apiException 404 "\x7b\"message\": \"Error message\"\x7d")
    ∧ errorStr (.apiException 404 "\x7b\"message\": \"Error message\"\x7d")
        = "\x7b\"message\": \"Error message\"\x7d" := by
  refine ⟨?_, rfl⟩
  simp [_dispatch, _headers, hauth, htr, check_status, errorStr]

/-- Witness for C8 at a concrete request and the constant 404 transport. -/
theorem dispatch_404_error_string_witness :
    reqWithBody.auth = some ⟨"k1"⟩
    ∧ (∀ c : NetCall,
        (fun _ : NetCall => (⟨404, "\x7b\"message\": \"Error message\"\x7d"⟩ : HttpResponse)) c
          = ⟨404, "\x7b\"message\": \"Error message\"\x7d"⟩)
    ∧ ((_dispatch (fun _ => none)
          (fun _ => ⟨404, "\x7b\"message\": \"Error message\"\x7d"⟩) reqWithBody).result
        = .error (.apiException 404 "\x7b\"message\": \"Error message\"\x7d")
      ∧ errorStr (.apiException 404 "\x7b\"message\": \"Error message\"\x7d")
          = "\x7b\"message\": \"Error message\"\x7d") :=
  ⟨rfl, fun _ => rfl,
    dispatch_404_error_string (fun _ => none)
      (fun _ => ⟨404, "\x7b\"message\": \"Error message\"\x7d"⟩)
      reqWithBody ⟨"k1"⟩ rfl (fun _ => rfl)⟩

/-! Helper lemma shared by the redirect claims: popping a header makes a
case-insensitive lookup of that key fail. -/

theorem headerGet_headerPop (hs : List (String × String)) (k : String) :
    headerGet (headerPop hs k) k = none := by
  unfold headerGet headerPop
  rw [Option.map_eq_none', List.find?_eq_none]
  intro p hp
  have h := List.of_mem_filter hp
  simp only [bne_iff_ne, ne_eq] at h
  simpa using h

/-- Claim C2: on a redirect whose target's registered domain differs from the
original's, `rebuild_auth` removes the `Authorization` header, and when the
original header value matches `api-key (\S+)` the redirect URL gains an
`api_key` query parameter holding the extracted value. -/
theorem rebuild_auth_cross_domain (pr : PreparedRequest) (orig : Url) (v : String)
    (hget : headerGet pr.headers "Authorization" = some v)
    (hv : v ≠ "")
    (hdom : _is_subdomain_of_tld orig pr.url = false) :
    headerGet (rebuild_auth pr orig).headers "Authorization" = none
    ∧ (∀ key, apiKeyMatch v = some key →
        (rebuild_auth pr orig).url = prepare_url pr.url [("api_key", key)]
        ∧ ("api_key", key) ∈ (rebuild_auth pr orig).url.query) := by
  cases hk : apiKeyMatch v with
  | none =>
    have he : rebuild_auth pr orig
        = { pr with headers := headerPop pr.headers "Authorization" } := by
      simp [rebuild_auth, hget, hv, hdom, hk]
    rw [he]
    refine ⟨headerGet_headerPop _ _, ?_⟩
    intro key hkey
    exact Option.noConfusion hkey
  | some key0 =>
    have he : rebuild_auth pr orig
        = { headers := headerPop pr.headers "Authorization"
            url := prepare_url pr.url [("api_key", key0)] } := by
      simp [rebuild_auth, hget, hv, hdom, hk]
    rw [he]
    refine ⟨headerGet_headerPop _ _, ?_⟩
    intro key hkey
    have hkk : key0 = key := Option.some.inj hkey
    subst hkk
    exact ⟨rfl, by simp [prepare_url]⟩

/-- Witness for C2: a cross-domain redirect carrying a matching api-key
header. -/
theorem rebuild_auth_cross_domain_witness :
    headerGet [("Authorization", "api-key SECRET")] "Authorization"
        = some "api-key SECRET"
    ∧ "api-key SECRET" ≠ ""
    ∧ _is_subdomain_of_tld ⟨"api.planet.com", [], ""⟩
        (PreparedRequest.url ⟨[("Authorization", "api-key SECRET")],
          ⟨"files.example.org", [], ""⟩⟩) = false
    ∧ (headerGet (rebuild_auth ⟨[("Authorization", "api-key SECRET")],
          ⟨"files.example.org", [], ""⟩⟩ ⟨"api.planet.com", [], ""⟩).headers
          "Authorization" = none
      ∧ (∀ key, apiKeyMatch "api-key SECRET" = some key →
          (rebuild_auth ⟨[("Authorization", "api-key SECRET")],
            ⟨"files.example.org", [], ""⟩⟩ ⟨"api.planet.com", [], ""⟩).url
              = prepare_url ⟨"files.example.org", [], ""⟩ [("api_key", key)]
          ∧ ("api_key", key) ∈ (rebuild_auth ⟨[("Authorization", "api-key SECRET")],
              ⟨"files.example.org", [], ""⟩⟩ ⟨"api.planet.com", [], ""⟩).url.query)) :=
  ⟨by decide, by decide, by decide,
    rebuild_auth_cross_domain ⟨[("Authorization", "api-key SECRET")],
      ⟨"files.example.org", [], ""⟩⟩ ⟨"api.planet.com", [], ""⟩ "api-key SECRET"
      (by decide) (by decide) (by decide)⟩

/-- Claim C3: on a redirect whose target shares the original's registered
domain (last two labels equal), `rebuild_auth` returns the prepared request
unchanged — in particular the `Authorization` header keeps its value and the
URL gains no `api_key` parameter. -/
theorem rebuild_auth_same_domain (pr : PreparedRequest) (orig : Url)
    (h : _is_subdomain_of_tld orig pr.url = true) :
    rebuild_auth pr orig = pr := by
  unfold rebuild_auth
  cases hg : headerGet pr.headers "Authorization" with
  | none => rfl
  | some v =>
    by_cases hv : v = ""
    · simp [hv]
    · simp [hv, h]

/-- Witness for C3: a redirect between two subdomains of the same registered
domain. -/
theorem rebuild_auth_same_domain_witness :
    _is_subdomain_of_tld ⟨"api.planet.com", [], ""⟩
        (PreparedRequest.url ⟨[("Authorization", "api-key SECRET")],
          ⟨"tiles.planet.com", [], ""⟩⟩) = true
    ∧ rebuild_auth ⟨[("Authorization", "api-key SECRET")],
        ⟨"tiles.planet.com", [], ""⟩⟩ ⟨"api.planet.com", [], ""⟩
      = ⟨[("Authorization", "api-key SECRET")], ⟨"tiles.planet.com", [], ""⟩⟩ :=
  ⟨by decide,
    rebuild_auth_same_domain ⟨[("Authorization", "api-key SECRET")],
      ⟨"tiles.planet.com", [], ""⟩⟩ ⟨"api.planet.com", [], ""⟩ (by decide)⟩

/-- Claim C4: on a cross-registered-domain redirect whose `Authorization`
value does not match `api-key (\S+)`, `rebuild_auth` only removes the header:
no `api_key` parameter is added and the URL is untouched. -/
theorem rebuild_auth_cross_domain_no_match (pr : PreparedRequest) (orig : Url)
    (v : String)
    (hget : headerGet pr.headers "Authorization" = some v)
    (hv : v ≠ "")
    (hdom : _is_subdomain_of_tld orig pr.url = false)
    (hkey : apiKeyMatch v = none) :
    rebuild_auth pr orig
      = { pr with headers := headerPop pr.headers "Authorization" } := by
  simp [rebuild_auth, hget, hv, hdom, hkey]

/-- Witness for C4: a cross-domain redirect carrying a bearer-style header that
does not match the api-key pattern. -/
theorem rebuild_auth_cross_domain_no_match_witness :
    headerGet [("Authorization", "Bearer tok")] "Authorization" = some "Bearer tok"
    ∧ "Bearer tok" ≠ ""
    ∧ _is_subdomain_of_tld ⟨"api.planet.com", [], ""⟩
        (PreparedRequest.url ⟨[("Authorization", "Bearer tok")],
          ⟨"files.example.org", [], ""⟩⟩) = false
    ∧ apiKeyMatch "Bearer tok" = none
    ∧ rebuild_auth ⟨[("Authorization", "Bearer tok")], ⟨"files.example.org", [], ""⟩⟩
        ⟨"api.planet.com", [], ""⟩
      = { (⟨[("Authorization", "Bearer tok")], ⟨"files.example.org", [], ""⟩⟩ :
            PreparedRequest) with
          headers := headerPop [("Authorization", "Bearer tok")] "Authorization" } :=
  ⟨by decide, by decide, by decide, by decide,
    rebuild_auth_cross_domain_no_match
      ⟨[("Authorization", "Bearer tok")], ⟨"files.example.org", [], ""⟩⟩
      ⟨"api.planet.com", [], ""⟩ "Bearer tok" (by decide) (by decide) (by decide)
      (by decide)⟩

/-- Claim C9: the legacy `dispatch_request` with `auth=None` raises no
authentication error and sends with an empty header map — no `Authorization`
and no `Content-Type` even when body data is present; when auth is supplied,
`Content-Type: application/json` is set together with the `Authorization`
header. -/
theorem dispatch_request_no_auth (env : String → Option String)
    (transport : NetCall → HttpResponse) (method url : String)
    (params : List (String × String)) (data : Option String) :
    ((dispatch_request env transport method url none params data).result
        = .ok (transport { method := method, url := url, data := data, headers := [],
                           params := params, verify := USE_STRICT_SSL env })
      ∧ (dispatch_request env transport method url none params data).calls
        = [{ method := method, url := url, data := data, headers := [],
             params := params, verify := USE_STRICT_SSL env }])
    ∧ ∀ a : Auth,
        (dispatch_request env transport method url (some a) params data).calls
          = [{ method := method, url := url, data := data,
               headers := [("Authorization", "api-key " ++ a.value),
                           ("Content-Type", "application/json")],
               params := params, verify := USE_STRICT_SSL env }] :=
  ⟨⟨rfl, rfl⟩, fun _ => rfl⟩

/-! Helper lemmas for the rate limiter. -/

theorem throttler_gap {wait : ℚ} {n : ℕ} (tr : ThrottlerTrace wait n)
    (i j : Fin n) (hij : i.val + 1 = j.val) :
    tr.start i + wait ≤ tr.start j :=
  le_trans (tr.exit_after_wait i) (tr.serialized i j hij)

theorem throttler_chain {wait : ℚ} {n : ℕ} (tr : ThrottlerTrace wait n) :
    ∀ k : ℕ, ∀ i j : Fin n, j.val = i.val + k →
      tr.start i + (k : ℚ) * wait ≤ tr.start j := by
  intro k
  induction k with
  | zero =>
    intro i j h
    have hij : i = j := Fin.ext (by omega)
    subst hij
    simp
  | succ m ih =>
    intro i j h
    have hm : i.val + m < n := by omega
    have h1 := ih i ⟨i.val + m, hm⟩ rfl
    have h2 := throttler_gap tr ⟨i.val + m, hm⟩ j (by show i.val + m + 1 = j.val; omega)
    push_cast
    linarith

/-- Claim C5: through one throttler at `ops` operations per second (wait
interval `1/ops`), successive dispatch starts are at least `1/ops` apart, and
the span from the first to the last of `n` dispatch starts is at least
`(n-1) * (1/ops)`. -/
theorem throttler_spacing (ops : ℚ) (hops : 0 < ops) (n : ℕ)
    (tr : ThrottlerTrace (1/ops) n) :
    (∀ i j : Fin n, i.val + 1 = j.val → tr.start i + 1/ops ≤ tr.start j)
    ∧ (∀ (h0 : 0 < n), tr.start ⟨0, h0⟩ + ((n : ℚ) - 1) * (1/ops)
        ≤ tr.start ⟨n - 1, by omega⟩) := by
  constructor
  · intro i j hij
    exact throttler_gap tr i j hij
  · intro h0
    have h := throttler_chain tr (n - 1) ⟨0, h0⟩ ⟨n - 1, by omega⟩
      (by show n - 1 = 0 + (n - 1); omega)
    have hn : ((n - 1 : ℕ) : ℚ) = (n : ℚ) - 1 := by
      rw [Nat.cast_sub (by omega : 1 ≤ n)]
      norm_num
    rw [hn] at h
    linarith

/-- A concrete serialized trace: three dispatches at exactly the quarter-second
spacing a throttler at 4 operations per second enforces. -/
def sampleTrace : ThrottlerTrace (1/(4:ℚ)) 3 where
  start := fun i => (i.val : ℚ) / 4
  release := fun i => ((i.val : ℚ) + 1) / 4
  exit_after_wait := by
    intro i
    apply le_of_eq
    ring
  serialized := by
    intro i j hij
    apply le_of_eq
    show ((i.val : ℚ) + 1) / 4 = (j.val : ℚ) / 4
    have hc : (j.val : ℚ) = (i.val : ℚ) + 1 := by exact_mod_cast hij.symm
    rw [hc]

/-- Witness for C5 on the concrete three-dispatch trace. -/
theorem throttler_spacing_witness :
    (0 : ℚ) < 4
    ∧ ((∀ i j : Fin 3, i.val + 1 = j.val →
          sampleTrace.start i + 1/(4:ℚ) ≤ sampleTrace.start j)
      ∧ (∀ (h0 : 0 < 3), sampleTrace.start ⟨0, h0⟩ + ((3 : ℚ) - 1) * (1/(4:ℚ))
          ≤ sampleTrace.start ⟨3 - 1, by omega⟩)) :=
  ⟨by norm_num, throttler_spacing 4 (by norm_num) 3 sampleTrace⟩

/-! Helper lemma: `__exit__` always advances the clock to at least
`self._t + self._wait` and never turns it back. -/

theorem throttlerExit_now_lower (wait : ℚ) (s : ThrState) :
    s.t + wait ≤ (throttlerExit wait s).now := by
  show s.t + wait
      ≤ (if 0 < wait - (s.now - s.t) then s.now + (wait - (s.now - s.t)) else s.now)
  split
  · linarith
  · next h =>
      push_neg at h
      linarith

/-- Claim C10: when the body of the throttled section raises, `__exit__` still
runs: the residual-wait sleep happens (the clock ends at or past entry time
plus the wait interval), the semaphore slot is released (the free-slot count
returns to its pre-call value), and since `__exit__` returns `False` the
exception propagates unchanged. -/
theorem withThrottler_exception_safe {E A : Type} (wait : ℚ)
    (body : ThrState → Except E A × ThrState) (s : ThrState) (e : E)
    (hslot : 1 ≤ s.sem)
    (hsem : ((body (throttlerEnter s)).2).sem = (throttlerEnter s).sem)
    (ht : ((body (throttlerEnter s)).2).t = (throttlerEnter s).t)
    (hraise : (body (throttlerEnter s)).1 = .error e) :
    (withThrottler wait body s).1 = .error e
    ∧ ((withThrottler wait body s).2).sem = s.sem
    ∧ s.now + wait ≤ ((withThrottler wait body s).2).now := by
  refine ⟨hraise, ?_, ?_⟩
  · show (body (throttlerEnter s)).2.sem + 1 = s.sem
    rw [hsem]
    show s.sem - 1 + 1 = s.sem
    omega
  · have h1 := throttlerExit_now_lower wait (body (throttlerEnter s)).2
    rw [ht] at h1
    exact h1

/-- A body that immediately raises `InvalidAPIKey`, leaving the state alone, as
header construction does on a credential-less request. -/
def failBody : ThrState → Except DispatchError HttpResponse × ThrState :=
  fun st => (.error (.invalidAPIKey "No API key provided"), st)

/-- Witness for C10 at a concrete throttler state and the raising body. -/
theorem withThrottler_exception_safe_witness :
    1 ≤ (⟨1, 0, 0⟩ : ThrState).sem
    ∧ ((failBody (throttlerEnter ⟨1, 0, 0⟩)).2).sem = (throttlerEnter ⟨1, 0, 0⟩).sem
    ∧ ((failBody (throttlerEnter ⟨1, 0, 0⟩)).2).t = (throttlerEnter ⟨1, 0, 0⟩).t
    ∧ (failBody (throttlerEnter ⟨1, 0, 0⟩)).1
        = .error (.invalidAPIKey "No API key provided")
    ∧ ((withThrottler (1/4) failBody ⟨1, 0, 0⟩).1
          = .error (.invalidAPIKey "No API key provided")
      ∧ ((withThrottler (1/4) failBody ⟨1, 0, 0⟩).2).sem = (⟨1, 0, 0⟩ : ThrState).sem
      ∧ (⟨1, 0, 0⟩ : ThrState).now + 1/4
          ≤ ((withThrottler (1/4) failBody ⟨1, 0, 0⟩).2).now) :=
  ⟨by norm_num, rfl, rfl, rfl,
    withThrottler_exception_safe (1/4) failBody ⟨1, 0, 0⟩
      (.invalidAPIKey "No API key provided") (by norm_num) rfl rfl rfl⟩

end Planet
